import Mathlib

/- Verification model of src/app.py (BlazeGAI/st-com-merge).

Python strings are modelled as Lean Strings (lists of characters); Python
str.split, str.strip, str.upper, str.lower, slicing and int() are modelled
by the pySplitWs / pySplitMax1 / pyStrip / pyUpper / pyLower / pyTake / pyInt
functions below.  A Python function that can raise an exception is modelled
as returning an Option, with none standing for "an exception is raised". -/

/-- Python whitespace test for str.split / str.strip (modelled by
Char.isWhitespace, which covers the common ASCII whitespace characters). -/
def isPyWs (c : Char) : Bool := c.isWhitespace

/-- Helper for pySplitWs: walk the characters accumulating the current token
(in reverse) in acc, emitting a token at each whitespace run boundary. -/
def wsTokensAux : List Char → List Char → List String
  | [], acc => if acc.isEmpty then [] else [String.mk acc.reverse]
  | c :: cs, acc =>
    if isPyWs c then
      if acc.isEmpty then wsTokensAux cs []
      else String.mk acc.reverse :: wsTokensAux cs []
    else wsTokensAux cs (c :: acc)

/-- Python str.split() with no arguments: split on runs of whitespace,
discarding empty tokens. -/
def pySplitWs (s : String) : List String := wsTokensAux s.data []

/-- Python str.split(maxsplit=1): at most one split; the remainder keeps its
trailing (but not leading) whitespace, and an all-whitespace remainder is
dropped.  An all-whitespace input yields the empty list. -/
def pySplitMax1 (s : String) : List String :=
  match s.data.dropWhile isPyWs with
  | [] => []
  | c :: rest =>
    let tok := String.mk (c :: rest.takeWhile (fun ch => !(isPyWs ch)))
    let after := (rest.dropWhile (fun ch => !(isPyWs ch))).dropWhile isPyWs
    if after.isEmpty then [tok] else [tok, String.mk after]

/-- Python str.strip(): drop whitespace from both ends. -/
def pyStrip (s : String) : String :=
  String.mk (((s.data.dropWhile isPyWs).reverse.dropWhile isPyWs).reverse)

/-- Python str.upper(), modelled character-wise. -/
def pyUpper (s : String) : String := String.mk (s.data.map Char.toUpper)

/-- Python str.lower(), modelled character-wise. -/
def pyLower (s : String) : String := String.mk (s.data.map Char.toLower)

/-- Python slicing s[:n]. -/
def pyTake (n : Nat) (s : String) : String := String.mk (s.data.take n)

/-- Helper for pySplitUnderscore: split at every separator, keeping empty
pieces, the current piece accumulated in reverse. -/
def splitSepAux (sep : Char) : List Char → List Char → List String
  | [], acc => [String.mk acc.reverse]
  | c :: cs, acc =>
    if c = sep then String.mk acc.reverse :: splitSepAux sep cs []
    else splitSepAux sep cs (c :: acc)

/-- Python str.split("_"): split at every underscore, keeping empty pieces
(so the result is never empty). -/
def pySplitUnderscore (s : String) : List String := splitSepAux '_' s.data []

/-- Value of a list of decimal digit characters. -/
def digitsVal (cs : List Char) : Nat :=
  cs.foldl (fun a c => a * 10 + (c.toNat - 48)) 0

/-- Python int(s) on an optionally signed decimal numeral; none models the
ValueError raised by int() on any other string. -/
def pyInt (s : String) : Option Int :=
  match s.data with
  | '-' :: rest =>
    if !rest.isEmpty && rest.all Char.isDigit then some (-(digitsVal rest : Int)) else none
  | '+' :: rest =>
    if !rest.isEmpty && rest.all Char.isDigit then some ((digitsVal rest : Int)) else none
  | cs =>
    if !cs.isEmpty && cs.all Char.isDigit then some ((digitsVal cs : Int)) else none

/-- SEASON_MAP from src/app.py line 9. -/
def SEASON_MAP : List (String × String) :=
  [("spring", "SP"), ("summer", "SU"), ("fall", "FA")]

/-- ROMAN_TO_NUM from src/app.py line 10. -/
def ROMAN_TO_NUM : List (String × String) :=
  [("I", "1"), ("II", "2")]

/-- The season-code expression of parse_term_code (src/app.py line 52):
SEASON_MAP.get(season.strip().lower(), season[:2].upper()). -/
def season_code_of (season : String) : String :=
  (List.lookup (pyLower (pyStrip season)) SEASON_MAP).getD (pyUpper (pyTake 2 season))

/-- The term-number expression of parse_term_code (src/app.py line 53):
ROMAN_TO_NUM.get(str(roman).upper(), "1"). -/
def term_num_of (roman : String) : String :=
  (List.lookup (pyUpper roman) ROMAN_TO_NUM).getD "1"

/-- parse_term_code (src/app.py lines 42-55). -/
def parse_term_code (project : String) : String × String :=
  match pySplitWs project with
  | [year, season, _, roman] =>
    (pyStrip year, season_code_of season ++ term_num_of roman)
  | _ => (project, "")

/-- Python format f"{n:02d}" at width 2. -/
def pad2 (n : Int) : String :=
  if 0 ≤ n ∧ n < 10 then "0" ++ toString n else toString n

/-- compute_section_from_title_suffix (src/app.py lines 57-71).  none models
the IndexError raised by split(maxsplit=1)[0] on an all-whitespace title;
the try/except around int() is the pyInt match. -/
def compute_section_from_title_suffix (course_title : String) : Option String :=
  match pySplitMax1 course_title with
  | [] => none
  | token :: _ =>
    let suffix := (pySplitUnderscore token).getLastD ""
    let section_num : Int :=
      match pyInt suffix with
      | some val => max (val % 100 - 90 + 1) 1
      | none => 1
    some (pad2 section_num)

/-- format_term (src/app.py lines 73-82).  none propagates an exception
raised by compute_section_from_title_suffix. -/
def format_term (project course_title : String) : Option String :=
  match parse_term_code project with
  | (year, code) =>
    if code ≠ "" then
      (compute_section_from_title_suffix course_title).map
        (fun sec => year ++ "_" ++ sec ++ "_" ++ code)
    else some project

/-- derive_course_code_from_title (src/app.py lines 18-29). -/
def derive_course_code_from_title (title : String) : String :=
  let s := pyStrip title
  if s = "" then ""
  else
    let first_token := (pySplitMax1 s).headD ""
    let head := (pySplitUnderscore first_token).headD ""
    pyUpper (pyTake 6 head)

/-- safe_course_name_from_title (src/app.py lines 31-40). -/
def safe_course_name_from_title (title : String) : String :=
  let s := pyStrip title
  if s = "" then ""
  else
    match pySplitMax1 s with
    | [_, second] => pyStrip second
    | _ => ""

/-- derive_filename (src/app.py lines 103-114). -/
def derive_filename (term_value : String) : String :=
  match pySplitUnderscore term_value with
  | [year, _, code] => year ++ "_" ++ code ++ "_Student_Comments_Watermark.csv"
  | _ => term_value ++ "_Student_Comments_Watermark.csv"

/- Tables.  A pandas DataFrame is modelled as a Frame: an ordered list of
column names together with a list of rows, each row an association list from
column name to the cell rendered as a string (the app applies astype(str) to
every consumed column).  The validation in main guarantees the required
columns are present before build_output_dataframe is called; cell access is
modelled with an empty-string default. -/

/-- A table row: association list from column name to string cell. -/
abbrev Row : Type := List (String × String)

/-- A table: ordered column names plus rows. -/
structure Frame where
  cols : List String
  rows : List Row
deriving DecidableEq

/-- Cell access r[c] (empty-string default for a cell absent from the row). -/
def getCell (r : Row) (c : String) : String :=
  match List.find? (fun p => p.fst == c) r with
  | some p => p.snd
  | none => ""

/-- REQUIRED_BASE_COLS (src/app.py lines 135-142). -/
def REQUIRED_BASE_COLS : List String :=
  ["Instructor Firstname", "Instructor Lastname", "Project",
   "Course Title", "QuestionKey", "Comments"]

/-- The source columns consumed by build_output_dataframe (the required
columns plus the optional "Course Code"). -/
def MAPPED_SOURCE_COLS : List String :=
  ["Project", "Course Title", "Course Code",
   "Instructor Firstname", "Instructor Lastname", "QuestionKey", "Comments"]

/-- The fixed column set of the output of build_output_dataframe
(src/app.py lines 92-100). -/
def OUTPUT_COLS : List String :=
  ["Term", "Course_Code", "Course_Name", "Inst_FName", "Inst_LName",
   "Question", "Response"]

/-- The Course_Code cell of one output row (src/app.py lines 87-90): the
"Course Code" column trimmed, truncated to 6, uppercased when that column
exists, otherwise derive_course_code_from_title of the course title. -/
def course_code_of (hasCC : Bool) (r : Row) : String :=
  if hasCC then pyUpper (pyTake 6 (pyStrip (getCell r "Course Code")))
  else derive_course_code_from_title (getCell r "Course Title")

/-- One output row of build_output_dataframe (src/app.py lines 92-100);
none models the exception propagated out of format_term. -/
def build_output_row (hasCC : Bool) (r : Row) : Option Row :=
  match format_term (getCell r "Project") (getCell r "Course Title") with
  | none => none
  | some term =>
    some [("Term", term),
          ("Course_Code", course_code_of hasCC r),
          ("Course_Name", safe_course_name_from_title (getCell r "Course Title")),
          ("Inst_FName", pyStrip (getCell r "Instructor Firstname")),
          ("Inst_LName", pyStrip (getCell r "Instructor Lastname")),
          ("Question", getCell r "QuestionKey"),
          ("Response", getCell r "Comments")]

/-- build_output_dataframe (src/app.py lines 84-101). -/
def build_output_dataframe (df : Frame) : Option Frame :=
  (df.rows.mapM (build_output_row (df.cols.contains "Course Code"))).map
    (fun rs => ⟨OUTPUT_COLS, rs⟩)

/-- The aggregate missing-column list of main (src/app.py line 157). -/
def missing_cols (df : Frame) : List String :=
  REQUIRED_BASE_COLS.filter (fun c => !(df.cols.contains c))

/-- Result of the post-upload portion of main (src/app.py lines 152-166). -/
inductive MainResult where
  | noData : MainResult
  | aborted : List String → MainResult
  | raised : MainResult
  | built : Frame → MainResult
deriving DecidableEq

/-- The transformation step of main once validation has passed; raised models
an exception escaping build_output_dataframe. -/
def build_result (df : Frame) : MainResult :=
  match build_output_dataframe df with
  | some out => MainResult.built out
  | none => MainResult.raised

/-- The control flow of main from the empty-check through the transformation
(src/app.py lines 152-166): return early on an empty frame, abort with the
aggregate missing-column list when validation fails, otherwise build. -/
def run_main (df : Frame) : MainResult :=
  if df.rows.isEmpty || df.cols.isEmpty then MainResult.noData
  else if (missing_cols df).isEmpty then build_result df
  else MainResult.aborted (missing_cols df)

/-- The download filename of main (src/app.py lines 173-174): derived from
the first output row's Term value; none models the IndexError of iloc[0] on
an empty table. -/
def main_filename (out : Frame) : Option String :=
  out.rows.head?.map (fun r => derive_filename (getCell r "Term"))

/- The join component.  This repository variant contains no join or append;
the definitions below follow the spec's TableJoiner contract. -/

/-- Modelled from the spec: two rows are join-equal iff all configured key
fields compare equal as strings; this lists the key tuple of a row. -/
def key_tuple (keys : List String) (r : Row) : List String :=
  keys.map (getCell r)

/-- Modelled from the spec: the right rows matching a left row's key tuple. -/
def right_matches (keys : List String) (right : List Row) (l : Row) : List Row :=
  right.filter (fun r => key_tuple keys l == key_tuple keys r)

/-- Modelled from the spec: right-only columns filled with empty values for
an unmatched left row. -/
def empty_fill (rOnly : List String) : Row :=
  rOnly.map (fun c => (c, ""))

/-- Modelled from the spec: the output rows produced from one left row —
one padded row when no right row matches, otherwise one merged row per
matching right row (all Cartesian combinations). -/
def join_one (keys rOnly : List String) (right : List Row) (l : Row) : List Row :=
  match right_matches keys right l with
  | [] => [l ++ empty_fill rOnly]
  | ms => ms.map (fun r => l ++ rOnly.map (fun c => (c, getCell r c)))

/-- Modelled from the spec: the joined rows, left rows processed in order. -/
def join_rows (keys rOnly : List String) (right : List Row) : List Row → List Row
  | [] => []
  | l :: ls => join_one keys rOnly right l ++ join_rows keys rOnly right ls

/-- Modelled from the spec: the columns of the right table absent from the
left table. -/
def right_only_cols (left right : Frame) : List String :=
  right.cols.filter (fun c => !(left.cols.contains c))

/-- Modelled from the spec: join(left, right, keys), a left outer-preserving
join on the configured key columns. -/
def leftJoin (keys : List String) (left right : Frame) : Frame :=
  ⟨left.cols ++ right_only_cols left right,
   join_rows keys (right_only_cols left right) right.rows left.rows⟩

/-- Number of left rows with at least one match (the m of the spec's join
cardinality formula). -/
def matched_count (keys : List String) (right ls : List Row) : Nat :=
  (ls.filter (fun l => !(right_matches keys right l).isEmpty)).length

/-- Total number of matches over the left rows (the sum of the k_i of the
spec's join cardinality formula; unmatched rows contribute 0). -/
def total_matches (keys : List String) (right ls : List Row) : Nat :=
  (ls.map (fun l => (right_matches keys right l).length)).sum

/- Claimed correspondences taken from the spec's data model, for comparison
with what the code computes. -/

/-- Modelled from the spec: the data model's season-name to seasonCode
correspondence (seasonCode in SP, SU, FA, WI for Spring, Summer, Fall,
Winter). -/
def specSeasonCode (season : String) : String :=
  if season = "Spring" then "SP"
  else if season = "Summer" then "SU"
  else if season = "Fall" then "FA"
  else if season = "Winter" then "WI"
  else ""

/-- Modelled from the spec: the data model's romanIndex to termNumber
correspondence (I, II, III, IV to 1, 2, 3, 4). -/
def specRomanDigit (roman : String) : String :=
  if roman = "I" then "1"
  else if roman = "II" then "2"
  else if roman = "III" then "3"
  else if roman = "IV" then "4"
  else ""

/- Helper lemmas. -/

/-- Every token produced by wsTokensAux from a whitespace-free accumulator is
whitespace-free. -/
theorem wsTokensAux_no_ws :
    ∀ (l acc : List Char), (∀ c ∈ acc, isPyWs c = false) →
      ∀ t ∈ wsTokensAux l acc, ∀ ch ∈ t.data, isPyWs ch = false := by
  intro l
  induction l with
  | nil =>
    intro acc hacc t ht ch hch
    by_cases hae : acc.isEmpty
    · simp [wsTokensAux, hae] at ht
    · simp [wsTokensAux, hae] at ht
      subst ht
      exact hacc ch (List.mem_reverse.mp hch)
  | cons c cs ih =>
    intro acc hacc t ht ch hch
    by_cases hw : isPyWs c
    · by_cases hae : acc.isEmpty
      · simp [wsTokensAux, hw, hae] at ht
        exact ih [] (by simp) t ht ch hch
      · simp [wsTokensAux, hw, hae] at ht
        rcases ht with h1 | h2
        · subst h1
          exact hacc ch (List.mem_reverse.mp hch)
        · exact ih [] (by simp) t h2 ch hch
    · simp [wsTokensAux, hw] at ht
      refine ih (c :: acc) ?_ t ht ch hch
      intro x hx
      rcases List.mem_cons.mp hx with rfl | hx2
      · exact Bool.eq_false_iff.mpr hw
      · exact hacc x hx2

/-- Every token of pySplitWs is whitespace-free. -/
theorem pySplitWs_no_ws (s : String) :
    ∀ t ∈ pySplitWs s, ∀ ch ∈ t.data, isPyWs ch = false :=
  wsTokensAux_no_ws s.data [] (by simp)

/-- dropWhile is the identity on a list none of whose elements satisfy the
predicate. -/
theorem dropWhile_all_false {p : Char → Bool} :
    ∀ l : List Char, (∀ c ∈ l, p c = false) → l.dropWhile p = l := by
  intro l h
  cases l with
  | nil => rfl
  | cons a t => simp [List.dropWhile, h a (by simp)]

/-- pyStrip is the identity on a whitespace-free string. -/
theorem pyStrip_no_ws (t : String) (h : ∀ ch ∈ t.data, isPyWs ch = false) :
    pyStrip t = t := by
  have h1 : t.data.dropWhile isPyWs = t.data := dropWhile_all_false _ h
  have h2 : t.data.reverse.dropWhile isPyWs = t.data.reverse :=
    dropWhile_all_false _ (fun c hc => h c (List.mem_reverse.mp hc))
  unfold pyStrip
  rw [h1, h2, List.reverse_reverse]

/-- pyStrip is the identity on every token of pySplitWs. -/
theorem pyStrip_token (s t : String) (h : t ∈ pySplitWs s) : pyStrip t = t :=
  pyStrip_no_ws t (pySplitWs_no_ws s t h)

/-- The length of one joined block: 1 for an unmatched left row, else the
number of matching right rows. -/
theorem join_one_length (keys rOnly : List String) (right : List Row) (l : Row) :
    (join_one keys rOnly right l).length =
      if (right_matches keys right l).isEmpty then 1
      else (right_matches keys right l).length := by
  cases h : right_matches keys right l with
  | nil => simp [join_one, h]
  | cons a as => simp [join_one, h]

/-- Cardinality of the joined rows: n - m + sum of matches. -/
theorem join_rows_length (keys rOnly : List String) (right : List Row) :
    ∀ ls : List Row,
      (join_rows keys rOnly right ls).length =
        ls.length - matched_count keys right ls + total_matches keys right ls := by
  intro ls
  induction ls with
  | nil => simp [join_rows, matched_count, total_matches]
  | cons l ls ih =>
    have hm : matched_count keys right ls ≤ ls.length := by
      unfold matched_count
      exact List.length_filter_le _ _
    by_cases he : (right_matches keys right l).isEmpty
    · have hc : matched_count keys right (l :: ls) = matched_count keys right ls := by
        simp [matched_count, List.filter_cons, he]
      have ht : total_matches keys right (l :: ls) =
          (right_matches keys right l).length + total_matches keys right ls := by
        simp [total_matches]
      have hz : (right_matches keys right l).length = 0 := by
        simp [List.isEmpty_iff] at he
        simp [he]
      simp only [join_rows, List.length_append, join_one_length, he, if_true,
        hc, ht, hz, ih, List.length_cons]
      omega
    · have hc : matched_count keys right (l :: ls) = matched_count keys right ls + 1 := by
        simp [matched_count, List.filter_cons, he]
      have ht : total_matches keys right (l :: ls) =
          (right_matches keys right l).length + total_matches keys right ls := by
        simp [total_matches]
      rw [Bool.not_eq_true] at he
      simp only [join_rows, List.length_append, join_one_length, he,
        Bool.false_eq_true, if_false, hc, ht, ih, List.length_cons]
      omega

/-- Every left row reappears (as a prefix of some output row). -/
theorem join_rows_mem (keys rOnly : List String) (right : List Row) :
    ∀ (ls : List Row) (l : Row), l ∈ ls →
      ∃ rest : Row, (l ++ rest) ∈ join_rows keys rOnly right ls := by
  intro ls
  induction ls with
  | nil => intro l hl; cases hl
  | cons x xs ih =>
    intro l hl
    rcases List.mem_cons.mp hl with rfl | hl2
    · cases h : right_matches keys right l with
      | nil =>
        refine ⟨empty_fill rOnly, ?_⟩
        apply List.mem_append_left
        simp [join_one, h]
      | cons a as =>
        refine ⟨rOnly.map (fun c => (c, getCell a c)), ?_⟩
        apply List.mem_append_left
        simp only [join_one, h]
        exact List.mem_map_of_mem _ (by simp)
    · obtain ⟨rest, hrest⟩ := ih l hl2
      exact ⟨rest, List.mem_append_right _ hrest⟩

/-- An unmatched left row reappears padded with empty right-only fields. -/
theorem join_rows_unmatched (keys rOnly : List String) (right : List Row) :
    ∀ (ls : List Row) (l : Row), l ∈ ls → right_matches keys right l = [] →
      (l ++ empty_fill rOnly) ∈ join_rows keys rOnly right ls := by
  intro ls
  induction ls with
  | nil => intro l hl; cases hl
  | cons x xs ih =>
    intro l hl hnone
    rcases List.mem_cons.mp hl with rfl | hl2
    · apply List.mem_append_left
      simp [join_one, hnone]
    · exact List.mem_append_right _ (ih l hl2 hnone)

/-- An uppercased n-truncation has length at most n. -/
theorem pyUpper_pyTake_length (n : Nat) (s : String) :
    (pyUpper (pyTake n s)).length ≤ n := by
  show (String.mk (((s.data.take n)).map Char.toUpper)).length ≤ n
  show ((s.data.take n).map Char.toUpper).length ≤ n
  rw [List.length_map, List.length_take]
  exact Nat.min_le_left _ _

/- Claim theorems. -/

/-- C1: the claim says the term-formatting pipeline raises no exception on
any input pair.  The code contradicts this: with a 4-token project and an
all-whitespace course title, compute_section_from_title_suffix evaluates
split(maxsplit=1)[0] on an empty token list and raises IndexError (modelled
by none), although a non-4-token project is indeed returned unchanged. -/
theorem c1_format_term_exception :
    format_term "2025 Summer Term I" "" = none
    ∧ format_term "2025 Summer" "CUL210_191 Intro" = some "2025 Summer" := by
  constructor <;> decide

/-- C2 counterexample: the claim says roman index III decodes to term number
3, but ROMAN_TO_NUM only contains I and II, so III falls to the default "1":
parse_term_code "2025 Summer Term III" yields code "SU1", not "SU3". -/
theorem c2_counterexample :
    parse_term_code "2025 Summer Term III" = ("2025", "SU1")
    ∧ specRomanDigit "III" = "3"
    ∧ (parse_term_code "2025 Summer Term III").2 ≠ "SU" ++ specRomanDigit "III" := by
  refine ⟨by decide, by decide, by decide⟩

/-- C2 (amended): for every 4-token project text the produced code is the
season code followed by the term number, where roman indices I and II map to
1 and 2 and the unknown indices III and IV default to "1". -/
theorem c2_roman_mapping :
    (∀ (project y s t r : String), pySplitWs project = [y, s, t, r] →
        parse_term_code project = (pyStrip y, season_code_of s ++ term_num_of r))
    ∧ term_num_of "I" = "1" ∧ term_num_of "II" = "2"
    ∧ term_num_of "III" = "1" ∧ term_num_of "IV" = "1" := by
  refine ⟨?_, by decide, by decide, by decide, by decide⟩
  intro project y s t r h
  simp [parse_term_code, h]

/-- Concrete application input for C2. -/
theorem c2_roman_mapping_witness :
    parse_term_code "2025 Summer Term II" =
      (pyStrip "2025", season_code_of "Summer" ++ term_num_of "II") :=
  c2_roman_mapping.1 "2025 Summer Term II" "2025" "Summer" "Term" "II" (by decide)

/-- Input frame with a passthrough column, for the C3 analysis. -/
def c3df : Frame :=
  ⟨["Project", "Course Title", "Instructor Firstname", "Instructor Lastname",
    "QuestionKey", "Comments", "Extra"],
   [[("Project", "2025 Summer Term I"), ("Course Title", "CUL210_190 Intro to Cooking"),
     ("Instructor Firstname", "Ann"), ("Instructor Lastname", "Lee"),
     ("QuestionKey", "Q1"), ("Comments", "Nice"), ("Extra", "KEEP")]]⟩

/-- C3 counterexample: the claim says every input column beyond the mapped
source columns appears unchanged in the output, but build_output_dataframe
constructs a fresh 7-column frame: the input column "Extra" is dropped. -/
theorem c3_counterexample :
    "Extra" ∈ c3df.cols ∧ "Extra" ∉ MAPPED_SOURCE_COLS
    ∧ (build_output_dataframe c3df).map Frame.cols = some OUTPUT_COLS
    ∧ "Extra" ∉ OUTPUT_COLS := by
  refine ⟨by decide, by decide, by decide, by decide⟩

/-- C3 (amended): the output of build_output_dataframe always has exactly the
seven canonical columns; every other input column is dropped, nothing is
passed through. -/
theorem c3_output_cols (df out : Frame)
    (h : build_output_dataframe df = some out) : out.cols = OUTPUT_COLS := by
  unfold build_output_dataframe at h
  cases hm : df.rows.mapM (build_output_row (df.cols.contains "Course Code")) with
  | none => rw [hm] at h; simp at h
  | some rs =>
    rw [hm] at h
    simp only [Option.map_some', Option.some.injEq] at h
    rw [← h]

/-- Concrete application input for C3. -/
theorem c3_output_cols_witness :
    (build_output_dataframe c3df).map Frame.cols = some OUTPUT_COLS := by
  cases hb : build_output_dataframe c3df with
  | none => exact absurd hb (by decide)
  | some out => simp [c3_output_cols c3df out hb]

/-- C6: for every course title whose first whitespace token has a numeric
suffix v after its last underscore, the inferred section is
max((v mod 100) - 90 + 1, 1) rendered as a zero-padded 2-digit string; in
particular auxiliary id 191 yields section "02". -/
theorem c6_section_modulo (title tok : String) (rest : List String) (v : Int)
    (h1 : pySplitMax1 title = tok :: rest)
    (h2 : pyInt ((pySplitUnderscore tok).getLastD "") = some v) :
    compute_section_from_title_suffix title = some (pad2 (max (v % 100 - 90 + 1) 1))
    ∧ compute_section_from_title_suffix "CUL210_191 Culinary Arts" = some "02" := by
  constructor
  · unfold compute_section_from_title_suffix
    rw [h1]
    simp only [List.getLastD_eq_getLast?] at h2
    simp [h2]
  · decide

/-- Concrete application input for C6. -/
theorem c6_section_modulo_witness :
    compute_section_from_title_suffix "CUL210_191 Culinary Arts" =
      some (pad2 (max ((191 : Int) % 100 - 90 + 1) 1)) :=
  (c6_section_modulo "CUL210_191 Culinary Arts" "CUL210_191" ["Culinary Arts"] 191
    (by decide) (by decide)).1

/-- C7: for every 4-token project text whose season token is unknown to
SEASON_MAP under case-insensitive comparison, the season code is the season
token's first two characters uppercased; in particular season "Winter"
(absent from SEASON_MAP) produces code "WI". -/
theorem c7_unknown_season :
    (∀ (project y s t r : String), pySplitWs project = [y, s, t, r] →
        List.lookup (pyLower (pyStrip s)) SEASON_MAP = none →
        parse_term_code project = (pyStrip y, pyUpper (pyTake 2 s) ++ term_num_of r))
    ∧ parse_term_code "2025 Winter Term I" = ("2025", "WI1") := by
  constructor
  · intro project y s t r h hlook
    simp [parse_term_code, h, season_code_of, hlook]
  · decide

/-- Concrete application input for C7. -/
theorem c7_unknown_season_witness :
    parse_term_code "2025 Winter Term I" =
      (pyStrip "2025", pyUpper (pyTake 2 "Winter") ++ term_num_of "I") :=
  c7_unknown_season.1 "2025 Winter Term I" "2025" "Winter" "Term" "I"
    (by decide) (by decide)

/-- C4: the join over a configured key set is a left outer-preserving join:
the output has exactly n - m + (sum of matches) rows (n left rows, m left
rows with at least one match, unmatched rows contributing 1 each), every
left row reappears at least once (as the left part of an output row), and
an unmatched left row reappears with empty values for right-only fields. -/
theorem c4_left_join (keys : List String) (left right : Frame) :
    (leftJoin keys left right).rows.length =
      left.rows.length - matched_count keys right.rows left.rows +
        total_matches keys right.rows left.rows
    ∧ (∀ l ∈ left.rows, ∃ rest : Row, (l ++ rest) ∈ (leftJoin keys left right).rows)
    ∧ (∀ l ∈ left.rows, right_matches keys right.rows l = [] →
        (l ++ empty_fill (right_only_cols left right)) ∈ (leftJoin keys left right).rows) := by
  refine ⟨?_, ?_, ?_⟩
  · exact join_rows_length keys (right_only_cols left right) right.rows left.rows
  · intro l hl
    exact join_rows_mem keys (right_only_cols left right) right.rows left.rows l hl
  · intro l hl hnone
    exact join_rows_unmatched keys (right_only_cols left right) right.rows left.rows l hl hnone

/-- Join keys for the C4 concrete tables. -/
def c4keys : List String := ["Term", "Course_Code"]

/-- Concrete left table for C4: one key matched twice on the right, one
unmatched row. -/
def c4L : Frame :=
  ⟨["Term", "Course_Code", "Question"],
   [[("Term", "2025_01_SU1"), ("Course_Code", "ACC210"), ("Question", "Q1")],
    [("Term", "2025_01_SU1"), ("Course_Code", "BIO101"), ("Question", "Q2")]]⟩

/-- Concrete right table for C4: two rows sharing the ACC210 key. -/
def c4R : Frame :=
  ⟨["Term", "Course_Code", "Payload"],
   [[("Term", "2025_01_SU1"), ("Course_Code", "ACC210"), ("Payload", "p1")],
    [("Term", "2025_01_SU1"), ("Course_Code", "ACC210"), ("Payload", "p2")]]⟩

/-- The unmatched left row of c4L. -/
def c4row : Row :=
  [("Term", "2025_01_SU1"), ("Course_Code", "BIO101"), ("Question", "Q2")]

/-- Concrete application input for C4. -/
theorem c4_left_join_witness :
    (leftJoin c4keys c4L c4R).rows.length =
      c4L.rows.length - matched_count c4keys c4R.rows c4L.rows +
        total_matches c4keys c4R.rows c4L.rows
    ∧ (c4row ++ empty_fill (right_only_cols c4L c4R)) ∈ (leftJoin c4keys c4L c4R).rows :=
  ⟨(c4_left_join c4keys c4L c4R).1,
   (c4_left_join c4keys c4L c4R).2.2 c4row (by decide) (by decide)⟩

/-- C5 counterexample: the claim's general round trip fails for roman index
III: encoding the decode of "2025 Summer Term III" produces term number 1,
not the 3 the data model assigns to III, so the roman index is not
reproduced. -/
theorem c5_counterexample :
    format_term "2025 Summer Term III" "CUL210_190 Intro" = some "2025_01_SU1"
    ∧ specSeasonCode "Summer" ++ specRomanDigit "III" = "SU3"
    ∧ format_term "2025 Summer Term III" "CUL210_190 Intro" ≠
        some ("2025" ++ "_" ++ "01" ++ "_" ++
          (specSeasonCode "Summer" ++ specRomanDigit "III")) := by
  refine ⟨by decide, by decide, by decide⟩

/-- C5 (amended): decoding "2025 Summer Term I" and encoding with a title
whose suffix yields section 1 produces exactly "2025_01_SU1"; in general,
for a 4-token source text whose season is one of the four data-model seasons
and whose roman index is I or II, the decode-then-encode round trip
reproduces the year, the canonical season code and the term number (roman
indices III and IV are not reproduced: they default to term number 1). -/
theorem c5_round_trip :
    format_term "2025 Summer Term I" "CUL210_190 Intro to Cooking" = some "2025_01_SU1"
    ∧ (∀ (project title y s t r sec : String),
        pySplitWs project = [y, s, t, r] →
        (s = "Spring" ∨ s = "Summer" ∨ s = "Fall" ∨ s = "Winter") →
        (r = "I" ∨ r = "II") →
        compute_section_from_title_suffix title = some sec →
        format_term project title =
          some (y ++ "_" ++ sec ++ "_" ++ (specSeasonCode s ++ specRomanDigit r))) := by
  constructor
  · decide
  · intro project title y s t r sec hp hs hr hsec
    have hy : pyStrip y = y := pyStrip_token project y (by rw [hp]; simp)
    have hcode : season_code_of s ++ term_num_of r = specSeasonCode s ++ specRomanDigit r := by
      rcases hs with rfl | rfl | rfl | rfl <;> rcases hr with rfl | rfl <;> decide
    have hne : season_code_of s ++ term_num_of r ≠ "" := by
      rcases hs with rfl | rfl | rfl | rfl <;> rcases hr with rfl | rfl <;> decide
    simp [format_term, parse_term_code, hp, hsec, hy, hne, hcode]
    intro h0
    exact absurd (hcode.trans h0) hne

/-- Concrete application input for C5. -/
theorem c5_round_trip_witness :
    format_term "2026 Fall Term II" "ACC210_191 Accounting" =
      some ("2026" ++ "_" ++ "02" ++ "_" ++ (specSeasonCode "Fall" ++ specRomanDigit "II")) :=
  c5_round_trip.2 "2026 Fall Term II" "ACC210_191 Accounting" "2026" "Fall" "Term" "II" "02"
    (by decide) (by decide) (by decide) (by decide)

/-- C8: the validation of main collects every missing required column in one
aggregate list (not fail-fast), and on a non-empty input frame the
transformation runs exactly when no required column is missing: otherwise
main aborts carrying the full missing-column list and the input frame is
never transformed. -/
theorem c8_validation (df : Frame) :
    (∀ c : String, c ∈ missing_cols df ↔ (c ∈ REQUIRED_BASE_COLS ∧ df.cols.contains c = false))
    ∧ (df.rows.isEmpty = false → df.cols.isEmpty = false →
        (missing_cols df ≠ [] → run_main df = MainResult.aborted (missing_cols df))
        ∧ (missing_cols df = [] → run_main df = build_result df)) := by
  constructor
  · intro c
    simp [missing_cols, List.mem_filter]
  · intro hr hc
    constructor
    · intro hm
      have he : (missing_cols df).isEmpty = false := by
        simp [List.isEmpty_iff, hm]
      simp [run_main, hr, hc, he]
    · intro hm
      have he : (missing_cols df).isEmpty = true := by
        simp [List.isEmpty_iff, hm]
      simp [run_main, hr, hc, he]

/-- Input frame with missing required columns, for the C8 witness. -/
def c8df : Frame := ⟨["Project"], [[("Project", "x")]]⟩

/-- Concrete application input for C8. -/
theorem c8_validation_witness :
    run_main c8df = MainResult.aborted (missing_cols c8df) :=
  ((c8_validation c8df).2 (by decide) (by decide)).1 (by decide)

/-- C9: the output Course_Code has at most 6 characters; when the "Course
Code" column is present it is that column's value trimmed, truncated to 6,
uppercased, and otherwise it is the uppercased 6-truncation of the course
title's first token up to the first underscore; and the Course_Code cell of
every built output row is exactly this value. -/
theorem c9_course_code :
    (∀ (hasCC : Bool) (r : Row), (course_code_of hasCC r).length ≤ 6)
    ∧ (∀ r : Row, course_code_of true r = pyUpper (pyTake 6 (pyStrip (getCell r "Course Code"))))
    ∧ (∀ r : Row, course_code_of false r = derive_course_code_from_title (getCell r "Course Title"))
    ∧ (∀ (title tok : String) (rest : List String), pyStrip title ≠ "" →
        pySplitMax1 (pyStrip title) = tok :: rest →
        derive_course_code_from_title title =
          pyUpper (pyTake 6 ((pySplitUnderscore tok).headD "")))
    ∧ (∀ (hasCC : Bool) (r out : Row), build_output_row hasCC r = some out →
        getCell out "Course_Code" = course_code_of hasCC r) := by
  refine ⟨?_, ?_, ?_, ?_, ?_⟩
  · intro hasCC r
    cases hasCC with
    | true => exact pyUpper_pyTake_length 6 _
    | false =>
      show (derive_course_code_from_title _).length ≤ 6
      unfold derive_course_code_from_title
      by_cases h : pyStrip (getCell r "Course Title") = ""
      · simp [h]
      · simp only [h, if_false]
        exact pyUpper_pyTake_length 6 _
  · intro r
    rfl
  · intro r
    rfl
  · intro title tok rest h htok
    unfold derive_course_code_from_title
    simp only [h, if_false, htok, List.headD_cons]
  · intro hasCC r out h
    unfold build_output_row at h
    cases hf : format_term (getCell r "Project") (getCell r "Course Title") with
    | none => rw [hf] at h; simp at h
    | some term =>
      rw [hf] at h
      simp only [Option.some.injEq] at h
      rw [← h]
      simp [getCell, List.find?]

/-- Concrete application input for C9. -/
theorem c9_course_code_witness :
    derive_course_code_from_title "CUL210_191 Intro" =
      pyUpper (pyTake 6 ((pySplitUnderscore "CUL210_191").headD "")) :=
  c9_course_code.2.2.2.1 "CUL210_191 Intro" "CUL210_191" ["Intro"] (by decide) (by decide)

/-- C10: a term value splitting on underscores into exactly 3 parts
year_section_code yields filename "{year}_{code}_Student_Comments_Watermark.csv"
(the section part is dropped); any other term value is used as-is; and main
derives the filename solely from the first output row's Term value. -/
theorem c10_filename :
    (∀ (term y s c : String), pySplitUnderscore term = [y, s, c] →
        derive_filename term = y ++ "_" ++ c ++ "_Student_Comments_Watermark.csv")
    ∧ (∀ term : String, (pySplitUnderscore term).length ≠ 3 →
        derive_filename term = term ++ "_Student_Comments_Watermark.csv")
    ∧ (∀ (out : Frame) (r : Row) (rest : List Row), out.rows = r :: rest →
        main_filename out = some (derive_filename (getCell r "Term"))) := by
  refine ⟨?_, ?_, ?_⟩
  · intro term y s c h
    simp [derive_filename, h]
  · intro term h
    unfold derive_filename
    rcases hs : pySplitUnderscore term with _ | ⟨a, _ | ⟨b, _ | ⟨c, _ | ⟨d, tl⟩⟩⟩⟩ <;>
      first
        | rfl
        | (exfalso; rw [hs] at h; simp at h)
  · intro out r rest h
    simp [main_filename, h]

/-- Concrete application input for C10. -/
theorem c10_filename_witness :
    derive_filename "2025_01_SU1" = "2025" ++ "_" ++ "SU1" ++ "_Student_Comments_Watermark.csv"
    ∧ derive_filename "oddterm" = "oddterm" ++ "_Student_Comments_Watermark.csv" :=
  ⟨c10_filename.1 "2025_01_SU1" "2025" "01" "SU1" (by decide),
   c10_filename.2.1 "oddterm" (by decide)⟩

